import Mathlib

/-!
Shallow embedding of the boot-image codec in `unpack.py` (repository
boot-unpack-windwos).  Files are modelled as `List Nat` (one entry per byte),
file positions as natural numbers, and the Python file object as pure reads
`(file.drop pos).take n` (Python `f.read(n)` returns at most `n` bytes and
truncates at end of file).  Scanner loops, which can fail to make progress in
the source and are guarded there by a 30-second watchdog returning a default
value, take a fuel parameter; fuel exhaustion returns `none`, exactly the
observable behaviour of the watchdog default.  A Python exception that escapes
a decorated function is swallowed by the `timeout` wrapper thread and the
default value is returned; those paths also yield `none`.
-/

namespace BootUnpack

/-- Boolean prefix test on byte lists ("needle is a prefix of hay"). -/
def isPre : List Nat → List Nat → Bool
  | [], _ => true
  | _ :: _, [] => false
  | a :: xs, b :: ys => (a == b) && isPre xs ys

/-- Tail-recursive worker for `listFind`, carrying the current index. -/
def listFindAux (needle : List Nat) : Nat → List Nat → Option Nat
  | i, [] => if isPre needle [] then some i else none
  | i, a :: t => if isPre needle (a :: t) then some i else listFindAux needle (i + 1) t

/-- Model of Python `bytes.find`: index of the first occurrence of `needle`
as a contiguous substring of `hay`, `none` when absent. -/
def listFind (needle hay : List Nat) : Option Nat := listFindAux needle 0 hay

/-- Little-endian value of a byte list (used for struct "<I" / "<Q" unpacking). -/
def leVal (l : List Nat) : Nat := l.foldr (fun b acc => acc * 256 + b) 0

/-- struct.unpack("<I", l[i:i+4]) as used on header slices. -/
def le32 (l : List Nat) (i : Nat) : Nat := leVal ((l.drop i).take 4)

/-- struct.unpack("<Q", l[i:i+8]) as used on header slices. -/
def le64 (l : List Nat) (i : Nat) : Nat := leVal ((l.drop i).take 8)

/-- Big-endian value of a byte list (struct ">I", the FDT totalsize field). -/
def beVal (l : List Nat) : Nat := l.foldl (fun acc b => acc * 256 + b) 0

/-- Source `align_size(size, page_size)`: `(size + page_size - 1) // page_size * page_size`. -/
def align_size (size page_size : Nat) : Nat := (size + page_size - 1) / page_size * page_size

/-- The byte string b"ANDROID!". -/
def androidMagic : List Nat := [65, 78, 68, 82, 79, 73, 68, 33]

/-- FDT magic D0 0D FE ED. -/
def fdtMagic : List Nat := [0xD0, 0x0D, 0xFE, 0xED]

/-- The byte string b"DTB". -/
def dtbMagicBytes : List Nat := [68, 84, 66]

/-- The byte string b"DHTB". -/
def dhtbMagicBytes : List Nat := [68, 72, 84, 66]

/-- The byte string b"AVB0". -/
def avbMagic : List Nat := [65, 86, 66, 48]

/-- gzip magic 1F 8B. -/
def gzipMagic : List Nat := [0x1F, 0x8B]

/-- LZ4 frame magic 04 22 4D 18. -/
def lz4Magic : List Nat := [0x04, 0x22, 0x4D, 0x18]

/-- ZSTD frame magic 28 B5 2F FD. -/
def zstdMagic : List Nat := [0x28, 0xB5, 0x2F, 0xFD]

/-- The byte string b"070701" (cpio newc). -/
def cpioMagic1 : List Nat := [48, 55, 48, 55, 48, 49]

/-- The byte string b"070702" (cpio crc). -/
def cpioMagic2 : List Nat := [48, 55, 48, 55, 48, 50]

/-- Which of the three DTB magics a scan hit reports (the source returns
`magic.hex()`; the tag determines that string one-to-one). -/
inductive DtbMagic where
  | fdt
  | dtb
  | dhtb
deriving DecidableEq

/-- Bytes of each DTB magic tag. -/
def DtbMagic.bytes : DtbMagic → List Nat
  | .fdt => fdtMagic
  | .dtb => dtbMagicBytes
  | .dhtb => dhtbMagicBytes

/-- Outcome of examining one magic candidate inside a chunk of `scan_for_dtb`:
either the scan returns, or a Python exception escapes (negative seek), or the
inner for-loop continues with the file position `tell` it left behind. -/
inductive CandRes where
  | ret (off size : Nat) (m : DtbMagic)
  | exc
  | cont (tell : Int)

/-- Validation of one found DTB magic occurrence (src lines 52-75), given the
current file position `tell` and the in-chunk index `o` of the hit.  Source
variable names: `dtb_start` is `tell - chunkLen + o` (the source computes it
from `f.tell()`, which the validation itself mutates by seeking and reading,
so later candidates in the same chunk can see a stale position); `header` is
the 8-byte read at `dtb_start`; `dtb_size` is the big-endian u32 in
`header[4:8]`.  A negative seek raises in Python (the `.exc` outcome). -/
def dtbCandidateHit (file : List Nat) (fileSize chunkLen : Nat) (tell : Int)
    (o : Nat) (m : DtbMagic) : CandRes :=
  if (fileSize : Int) < tell - chunkLen + o + 8 then .cont tell
  else if tell - chunkLen + o < 0 then .exc
  else if ((file.drop (tell - chunkLen + o).toNat).take 8).length < 8 then
    .cont (((tell - chunkLen + o).toNat +
      ((file.drop (tell - chunkLen + o).toNat).take 8).length : Nat) : Int)
  else if m = DtbMagic.fdt then
    if 1024 ≤ beVal ((((file.drop (tell - chunkLen + o).toNat).take 8).drop 4).take 4) ∧
        beVal ((((file.drop (tell - chunkLen + o).toNat).take 8).drop 4).take 4) ≤
          min 1048576 (fileSize - (tell - chunkLen + o).toNat) then
      .ret (tell - chunkLen + o).toNat
        (beVal ((((file.drop (tell - chunkLen + o).toNat).take 8).drop 4).take 4)) .fdt
    else .cont (((tell - chunkLen + o).toNat + 8 : Nat) : Int)
  else .ret (tell - chunkLen + o).toNat 1024 m

/-- One candidate check of `scan_for_dtb` (src lines 51-75); `findRes` is
`chunk.find(magic)`, `-1` modelled as `none`. -/
def dtbCandidate (file : List Nat) (fileSize chunkLen : Nat) (tell : Int)
    (findRes : Option Nat) (m : DtbMagic) : CandRes :=
  match findRes with
  | none => .cont tell
  | some o => dtbCandidateHit file fileSize chunkLen tell o m

/-- The chunked while-loop of `scan_for_dtb` (src lines 49-76).  Each
iteration reads a 16384-byte chunk at `pos`, tries the three magics in order,
and on failure seeks to `tell - len(chunk) + 512`; a negative seek raises in
Python, which the timeout decorator converts to the not-found default. -/
def scanDtbGo (file : List Nat) (fileSize : Nat) : Nat → Nat → Option (Nat × Nat × DtbMagic)
  | 0, _ => none
  | fuel + 1, pos =>
    if fileSize ≤ pos then none
    else
      let chunk := (file.drop pos).take 16384
      let tell0 : Int := (pos : Int) + chunk.length
      match dtbCandidate file fileSize chunk.length tell0 (listFind fdtMagic chunk) .fdt with
      | .ret o s m => some (o, s, m)
      | .exc => none
      | .cont t1 =>
        match dtbCandidate file fileSize chunk.length t1 (listFind dtbMagicBytes chunk) .dtb with
        | .ret o s m => some (o, s, m)
        | .exc => none
        | .cont t2 =>
          match dtbCandidate file fileSize chunk.length t2 (listFind dhtbMagicBytes chunk) .dhtb with
          | .ret o s m => some (o, s, m)
          | .exc => none
          | .cont t3 =>
            let target : Int := t3 - chunk.length + 512
            if target < 0 then none
            else scanDtbGo file fileSize fuel target.toNat

/-- Source `scan_for_dtb(file_path, start_offset, file_size)` (src lines 41-77).
Returns `none` for the `(None, None, None)` default (not found, timeout, or an
escaped exception). -/
def scan_for_dtb (fuel : Nat) (file : List Nat) (start_offset fileSize : Nat) :
    Option (Nat × Nat × DtbMagic) :=
  scanDtbGo file fileSize fuel start_offset

/-- The `next_magic` computation of `scan_for_ramdisk` (src lines 132-136):
starting from `file_size`, for each signature take the first occurrence `p` in
`remaining` when `p > 0` and fold with `min (ramdisk_start + p)`. -/
def nextMagicFold (remaining : List Nat) (r fileSize : Nat) : Nat :=
  [gzipMagic, lz4Magic, zstdMagic, cpioMagic1, cpioMagic2, androidMagic].foldl
    (fun acc sig =>
      match listFind sig remaining with
      | some p => if 0 < p then min acc (r + p) else acc
      | none => acc) fileSize

/-- The `ramdisk_size` the scanner computes for a hit at offset `r`
(src lines 130-137): `remaining` is the read of `file_size - r` bytes at `r`
and the size is `next_magic - r`. -/
def ramdiskSizeAt (file : List Nat) (fileSize r : Nat) : Nat :=
  nextMagicFold ((file.drop r).take (fileSize - r)) r fileSize - r

/-- Outcome of examining one ramdisk magic candidate, as `CandRes` but
carrying the compression label. -/
inductive RdRes where
  | ret (off size : Nat) (comp : String)
  | exc
  | cont (tell : Int)

/-- Validation of one found ramdisk magic occurrence (src lines 119-141).
`ramdisk_start` is `tell - chunkLen + o`; the 8-byte header read and the
`remaining` read both move the file position, so a rejected candidate leaves a
stale position behind, exactly as in the source. -/
def rdCandidateHit (file : List Nat) (fileSize chunkLen : Nat) (tell : Int)
    (o : Nat) (comp : String) : RdRes :=
  if (fileSize : Int) < tell - chunkLen + o + 8 then .cont tell
  else if tell - chunkLen + o < 0 then .exc
  else if ((file.drop (tell - chunkLen + o).toNat).take 8).length < 8 then
    .cont (((tell - chunkLen + o).toNat +
      ((file.drop (tell - chunkLen + o).toNat).take 8).length : Nat) : Int)
  else if ramdiskSizeAt file fileSize (tell - chunkLen + o).toNat < 1024 ∨
      fileSize - (tell - chunkLen + o).toNat <
        ramdiskSizeAt file fileSize (tell - chunkLen + o).toNat then
    .cont (((tell - chunkLen + o).toNat +
      ((file.drop (tell - chunkLen + o).toNat).take
        (fileSize - (tell - chunkLen + o).toNat)).length : Nat) : Int)
  else .ret (tell - chunkLen + o).toNat
    (ramdiskSizeAt file fileSize (tell - chunkLen + o).toNat) comp

/-- One candidate check of `scan_for_ramdisk`; `findRes` is `chunk.find(magic)`. -/
def rdCandidate (file : List Nat) (fileSize chunkLen : Nat) (tell : Int)
    (findRes : Option Nat) (comp : String) : RdRes :=
  match findRes with
  | none => .cont tell
  | some o => rdCandidateHit file fileSize chunkLen tell o comp

/-- The chunked while-loop of `scan_for_ramdisk` (src lines 110-142), trying
gzip, LZ4, ZSTD and the two cpio magics in order in each chunk. -/
def scanRdGo (file : List Nat) (fileSize : Nat) : Nat → Nat → Option (Nat × Nat × String)
  | 0, _ => none
  | fuel + 1, pos =>
    if fileSize ≤ pos then none
    else
      let chunk := (file.drop pos).take 16384
      let tell0 : Int := (pos : Int) + chunk.length
      match rdCandidate file fileSize chunk.length tell0 (listFind gzipMagic chunk) "gzip" with
      | .ret o s c => some (o, s, c)
      | .exc => none
      | .cont t1 =>
        match rdCandidate file fileSize chunk.length t1 (listFind lz4Magic chunk) "lz4" with
        | .ret o s c => some (o, s, c)
        | .exc => none
        | .cont t2 =>
          match rdCandidate file fileSize chunk.length t2 (listFind zstdMagic chunk) "zstd" with
          | .ret o s c => some (o, s, c)
          | .exc => none
          | .cont t3 =>
            match rdCandidate file fileSize chunk.length t3 (listFind cpioMagic1 chunk) "cpio" with
            | .ret o s c => some (o, s, c)
            | .exc => none
            | .cont t4 =>
              match rdCandidate file fileSize chunk.length t4 (listFind cpioMagic2 chunk) "cpio" with
              | .ret o s c => some (o, s, c)
              | .exc => none
              | .cont t5 =>
                let target : Int := t5 - chunk.length + 512
                if target < 0 then none
                else scanRdGo file fileSize fuel target.toNat

/-- Source `scan_for_ramdisk(file_path, start_offset, file_size)`
(src lines 102-143); `none` is the `(None, None, None)` default. -/
def scan_for_ramdisk (fuel : Nat) (file : List Nat) (start_offset fileSize : Nat) :
    Option (Nat × Nat × String) :=
  scanRdGo file fileSize fuel start_offset

/-- The chunked while-loop of `scan_for_avb` (src lines 83-99).  On a hit at
in-chunk index `o` the source reads a little-endian u64 at `avb_start + 4`; a
short read raises `struct.error`, whose handler continues the while loop
WITHOUT the overlap seek; a failed size check falls through to the overlap
seek computed from the mutated position `avb_start + 12`. -/
def scanAvbGo (file : List Nat) (fileSize : Nat) : Nat → Nat → Option (Nat × Nat)
  | 0, _ => none
  | fuel + 1, pos =>
    if fileSize ≤ pos then none
    else
      let chunk := (file.drop pos).take 16384
      match listFind avbMagic chunk with
      | some o =>
        if ((file.drop (pos + o + 4)).take 8).length < 8 then
          scanAvbGo file fileSize fuel (pos + o + 4 + ((file.drop (pos + o + 4)).take 8).length)
        else
          if 64 ≤ leVal ((file.drop (pos + o + 4)).take 8) ∧
              leVal ((file.drop (pos + o + 4)).take 8) ≤ fileSize - (pos + o) then
            some (pos + o, leVal ((file.drop (pos + o + 4)).take 8))
          else
            let target : Int := ((pos + o + 12 : Nat) : Int) - chunk.length + 512
            if target < 0 then none
            else scanAvbGo file fileSize fuel target.toNat
      | none =>
        let target : Int := ((pos : Int) + chunk.length) - chunk.length + 512
        if target < 0 then none
        else scanAvbGo file fileSize fuel target.toNat

/-- Source `scan_for_avb(file_path, start_offset, file_size)` (src lines 79-100). -/
def scan_for_avb (fuel : Nat) (file : List Nat) (start_offset fileSize : Nat) :
    Option (Nat × Nat) :=
  scanAvbGo file fileSize fuel start_offset

/-- Python truthiness of an optional integer (`None` and `0` are falsy). -/
def truthy : Option Nat → Bool
  | none => false
  | some n => n != 0

/-- Source `extract_component(name, offset, size, ...)` (src lines 293-314),
reduced to its data behaviour: no bytes are produced when `size` or `offset`
is falsy, or when the read at `offset` returns fewer than `size` bytes; the
file-system write, the temp-file rename with retries, and the 30-second
watchdog are environment effects outside the embedding. -/
def extract_component (file : List Nat) (offset size : Nat) : Option (List Nat) :=
  if size ≠ 0 ∧ offset ≠ 0 then
    if ((file.drop offset).take size).length ≠ size then none
    else some ((file.drop offset).take size)
  else none

/-- Python exceptions the embedded code can raise. -/
inductive PyErr where
  | typeError
  | structPackArity
  | structPackValue
deriving DecidableEq

/-- The header fields read by `parse_boot_image` (src lines 191-249).  All
slices `header[a:b]` with `b ≤ 160` are full because the caller checks
`file_size ≥ 160` first, so the `struct.error` recovery path (src lines
203-209) is unreachable and the fields decode unconditionally.
`header_version` is the source value after the `> 4` reset to 0 (src line
211-218), `dtb_size0` is the `extra_field` routed into `dtb_size` in that
legacy case, and `page_size` is already clamped (src lines 241-244). -/
structure HeaderFields where
  kernel_size : Nat
  kernel_addr : Nat
  ramdisk_size0 : Nat
  ramdisk_addr : Nat
  second_size : Nat
  second_addr : Nat
  tags_addr : Nat
  page_size : Nat
  header_version : Nat
  extra_field : Nat
  dtb_size0 : Nat
  dtb_addr : Nat
  recovery_dtbo_size : Nat
  recovery_dtbo_offset0 : Nat
  header_size : Nat
  vendor_ramdisk_size : Nat
  dtb_size_v4 : Nat
  dtb_offset_v4 : Nat
deriving DecidableEq

/-- Source `page_size` validation (src lines 241-244). -/
def clampPage (n : Nat) : Nat :=
  if n = 2048 ∨ n = 4096 ∨ n = 8192 ∨ n = 16384 then n else 4096

/-- Decode the header fields from the (up to 1664 byte) header read. -/
def parseHeaderFields (header : List Nat) : HeaderFields :=
  let header_version0 := le32 header 40
  let header_version := if 4 < header_version0 then 0 else header_version0
  { kernel_size := le32 header 8
    kernel_addr := le32 header 12
    ramdisk_size0 := le32 header 16
    ramdisk_addr := le32 header 20
    second_size := le32 header 24
    second_addr := le32 header 28
    tags_addr := le32 header 32
    page_size := clampPage (le32 header 36)
    header_version := header_version
    extra_field := le32 header 44
    dtb_size0 := if 4 < header_version0 then le32 header 44 else 0
    dtb_addr := 0
    recovery_dtbo_size :=
      if 3 ≤ header_version ∧ 80 ≤ header.length then le32 header 64 else 0
    recovery_dtbo_offset0 :=
      if 3 ≤ header_version ∧ 80 ≤ header.length then le64 header 68 else 0
    header_size :=
      if 3 ≤ header_version ∧ 80 ≤ header.length then le32 header 76 else 0
    vendor_ramdisk_size :=
      if 4 ≤ header_version ∧ 96 ≤ header.length then le32 header 80 else 0
    dtb_size_v4 :=
      if 4 ≤ header_version ∧ 96 ≤ header.length then le32 header 84 else 0
    dtb_offset_v4 :=
      if 4 ≤ header_version ∧ 96 ≤ header.length then le64 header 88 else 0 }

/-- The offsets and scan outcomes computed by `parse_boot_image`
(src lines 255-280).  Fields that the source can leave as `None` (after a
failed scan) are `Option`s. -/
structure LayoutInfo where
  dtb_offset : Option Nat
  dtb_size : Option Nat
  ramdisk_offset : Option Nat
  ramdisk_size : Option Nat
  ramdisk_compression : Option String
  kernel_offset : Nat
  second_offset : Nat
  recovery_dtbo_offset : Nat
  vendor_ramdisk_offset : Nat
  avb : Option (Nat × Nat)
deriving DecidableEq

/-- The dtb offset and size after the optional scan (src lines 255-260):
`dtb_offset = dtb_offset_v4 if dtb_size_v4 else dtb_addr`, then the scan
replaces both when it runs (it runs when dtb is not skipped and both header
dtb sizes are zero). -/
def dtbScanStep (fuel : Nat) (file : List Nat) (skip_dtb : Bool) (hf : HeaderFields) :
    Option Nat × Option Nat :=
  if skip_dtb = false ∧ hf.dtb_size0 = 0 ∧ hf.dtb_size_v4 = 0 then
    match scan_for_dtb fuel file hf.page_size file.length with
    | some (o, s, _) => (some o, some s)
    | none => (none, none)
  else (some (if hf.dtb_size_v4 ≠ 0 then hf.dtb_offset_v4 else hf.dtb_addr), some hf.dtb_size0)

/-- The ramdisk offset, size and compression after the optional scan
(src lines 266-274): `ramdisk_offset = align(page_size + kernel_size) if
ramdisk_size else None`, compression starts as "unknown", and the scan
replaces all three when it runs (when the ramdisk is not skipped and the
header ramdisk_size is zero). -/
def rdScanStep (fuel : Nat) (file : List Nat) (skip_ramdisk : Bool) (hf : HeaderFields) :
    Option Nat × Option Nat × Option String :=
  if skip_ramdisk = false ∧ hf.ramdisk_size0 = 0 then
    match scan_for_ramdisk fuel file hf.page_size file.length with
    | some (o, s, c) => (some o, some s, some c)
    | none => (none, none, none)
  else
    ((if hf.ramdisk_size0 ≠ 0 then
        some (align_size (hf.page_size + hf.kernel_size) hf.page_size) else none),
      some hf.ramdisk_size0, some "unknown")

/-- Source line 277: `second_offset = align_size(ramdisk_offset + ramdisk_size,
page_size) if ramdisk_size else align_size(kernel_offset + kernel_size,
page_size)`.  Adding `None` to an integer would raise `TypeError`; that branch
is provably unreachable. -/
def secondOffsetStep (hf : HeaderFields) (ramdisk_offset ramdisk_size : Option Nat) :
    Except PyErr Nat :=
  match ramdisk_size with
  | some rs =>
    if rs ≠ 0 then
      match ramdisk_offset with
      | some ro => .ok (align_size (ro + rs) hf.page_size)
      | none => .error .typeError
    else .ok (align_size (hf.page_size + hf.kernel_size) hf.page_size)
  | none => .ok (align_size (hf.page_size + hf.kernel_size) hf.page_size)

/-- Source line 280: `vendor_ramdisk_offset = align_size(dtb_offset +
(dtb_size or 0), page_size) if vendor_ramdisk_size else 0`.  When the dtb
scan ran and found nothing, `dtb_offset` is `None` and the addition raises
`TypeError`. -/
def vendorOffsetStep (hf : HeaderFields) (dtb_offset dtb_size : Option Nat) :
    Except PyErr Nat :=
  if hf.vendor_ramdisk_size ≠ 0 then
    match dtb_offset with
    | some d => .ok (align_size (d + dtb_size.getD 0) hf.page_size)
    | none => .error .typeError
  else .ok 0

/-- The layout phase of `parse_boot_image` (src lines 255-280), in source
order: dtb scan, avb scan, ramdisk scan, `kernel_offset = page_size`,
`second_offset`, the line-278 dtb offset recomputation (its condition
`dtb_size and dtb_offset is None` never holds, but it is kept faithfully),
`recovery_dtbo_offset = header value if recovery_dtbo_size else 0`, and the
vendor ramdisk offset. -/
def parseLayout (fuel : Nat) (file : List Nat)
    (skip_ramdisk skip_dtb skip_avb : Bool) (hf : HeaderFields) :
    Except PyErr LayoutInfo :=
  let d0 := dtbScanStep fuel file skip_dtb hf
  let avb := if skip_avb then none else scan_for_avb fuel file hf.page_size file.length
  let rd := rdScanStep fuel file skip_ramdisk hf
  match secondOffsetStep hf rd.1 rd.2.1 with
  | .error e => .error e
  | .ok second_offset =>
    let dtb_offsetB :=
      if truthy d0.2 = true ∧ d0.1 = none then
        some (align_size (second_offset + hf.second_size) hf.page_size)
      else d0.1
    match vendorOffsetStep hf dtb_offsetB d0.2 with
    | .error e => .error e
    | .ok vendor_ramdisk_offset =>
      .ok { dtb_offset := dtb_offsetB
            dtb_size := d0.2
            ramdisk_offset := rd.1
            ramdisk_size := rd.2.1
            ramdisk_compression := rd.2.2
            kernel_offset := hf.page_size
            second_offset := second_offset
            recovery_dtbo_offset :=
              if hf.recovery_dtbo_size ≠ 0 then hf.recovery_dtbo_offset0 else 0
            vendor_ramdisk_offset := vendor_ramdisk_offset
            avb := avb }

/-- The payload bytes each `extract_component` call of `parse_boot_image`
produces (src lines 316-413), `none` when the call is skipped by its guard or
fails. -/
structure Extracted where
  kernelData : Option (List Nat)
  ramdiskData : Option (List Nat)
  secondData : Option (List Nat)
  dtbData : Option (List Nat)
  recoveryData : Option (List Nat)
  vendorData : Option (List Nat)
  avbData : Option (List Nat)
deriving DecidableEq

/-- The extraction phase of `parse_boot_image`: each call site with its guard
(src lines 316, 321, 372, 376, 380, 385, 411). -/
def parseExtract (file : List Nat) (skip_ramdisk skip_dtb skip_avb : Bool)
    (hf : HeaderFields) (li : LayoutInfo) : Extracted :=
  { kernelData :=
      if hf.kernel_size ≠ 0 then extract_component file li.kernel_offset hf.kernel_size
      else none
    ramdiskData :=
      if truthy li.ramdisk_size = true ∧ truthy li.ramdisk_offset = true ∧
          skip_ramdisk = false then
        extract_component file (li.ramdisk_offset.getD 0) (li.ramdisk_size.getD 0)
      else none
    secondData :=
      if hf.second_size ≠ 0 ∧ li.second_offset ≠ 0 then
        extract_component file li.second_offset hf.second_size
      else none
    dtbData :=
      if truthy li.dtb_size = true ∧ truthy li.dtb_offset = true ∧ skip_dtb = false then
        extract_component file (li.dtb_offset.getD 0) (li.dtb_size.getD 0)
      else none
    recoveryData :=
      if hf.recovery_dtbo_size ≠ 0 ∧ li.recovery_dtbo_offset ≠ 0 then
        extract_component file li.recovery_dtbo_offset hf.recovery_dtbo_size
      else none
    vendorData :=
      if hf.vendor_ramdisk_size ≠ 0 ∧ li.vendor_ramdisk_offset ≠ 0 ∧
          skip_ramdisk = false then
        extract_component file li.vendor_ramdisk_offset hf.vendor_ramdisk_size
      else none
    avbData :=
      match li.avb with
      | some (ao, asz) =>
        if ao ≠ 0 ∧ asz ≠ 0 ∧ skip_avb = false then extract_component file ao asz else none
      | none => none }

/-- The model the extraction returns (the dictionary of src lines 483-507,
numeric and payload parts; the path, directory and string metadata outputs
are file-system effects outside the embedding).  The computed offsets are
recorded as well so that theorems can speak about them. -/
structure ParseResult where
  kernel_size : Nat
  ramdisk_size : Option Nat
  second_size : Nat
  dtb_size : Option Nat
  recovery_dtbo_size : Nat
  vendor_ramdisk_size : Nat
  page_size : Nat
  header_version : Nat
  kernel_addr : Nat
  ramdisk_addr : Nat
  second_addr : Nat
  tags_addr : Nat
  ramdisk_compression : Option String
  kernel_offset : Nat
  ramdisk_offset : Option Nat
  second_offset : Nat
  dtb_offset : Option Nat
  recovery_dtbo_offset : Nat
  vendor_ramdisk_offset : Nat
  kernelData : Option (List Nat)
  ramdiskData : Option (List Nat)
  secondData : Option (List Nat)
  dtbData : Option (List Nat)
  recoveryData : Option (List Nat)
  vendorData : Option (List Nat)
  avbData : Option (List Nat)
deriving DecidableEq

/-- Assemble the returned model from the three phases. -/
def assembleResult (hf : HeaderFields) (li : LayoutInfo) (ex : Extracted) : ParseResult :=
  { kernel_size := hf.kernel_size
    ramdisk_size := li.ramdisk_size
    second_size := hf.second_size
    dtb_size := li.dtb_size
    recovery_dtbo_size := hf.recovery_dtbo_size
    vendor_ramdisk_size := hf.vendor_ramdisk_size
    page_size := hf.page_size
    header_version := hf.header_version
    kernel_addr := hf.kernel_addr
    ramdisk_addr := hf.ramdisk_addr
    second_addr := hf.second_addr
    tags_addr := hf.tags_addr
    ramdisk_compression := li.ramdisk_compression
    kernel_offset := li.kernel_offset
    ramdisk_offset := li.ramdisk_offset
    second_offset := li.second_offset
    dtb_offset := li.dtb_offset
    recovery_dtbo_offset := li.recovery_dtbo_offset
    vendor_ramdisk_offset := li.vendor_ramdisk_offset
    kernelData := ex.kernelData
    ramdiskData := ex.ramdiskData
    secondData := ex.secondData
    dtbData := ex.dtbData
    recoveryData := ex.recoveryData
    vendorData := ex.vendorData
    avbData := ex.avbData }

/-- The body of `parse_boot_image` (src lines 160-510) up to, but not
including, the outer `except Exception` handler: `.ok none` models the
explicit `return {}` paths (file smaller than 160 bytes, src line 176; bad
magic without force, src line 187), `.error e` a raised exception.  The
output-directory write test (src lines 163-172) is an environment effect and
is assumed to succeed; `header = f.read(1664)` is `file.take 1664`. -/
def parseBodyE (fuel : Nat) (file : List Nat)
    (skip_ramdisk skip_dtb skip_avb force : Bool) :
    Except PyErr (Option ParseResult) :=
  if file.length < 160 then .ok none
  else if file.take 8 ≠ androidMagic ∧ force = false then .ok none
  else
    let hf := parseHeaderFields (file.take 1664)
    match parseLayout fuel file skip_ramdisk skip_dtb skip_avb hf with
    | .error e => .error e
    | .ok li =>
      .ok (some (assembleResult hf li (parseExtract file skip_ramdisk skip_dtb skip_avb hf li)))

/-- Source `parse_boot_image(...)` (src lines 160-510) as observed by its
caller: the `except Exception` handler (src lines 508-510) turns any raised
exception into the empty dictionary, modelled as `none`. -/
def parse_boot_image (fuel : Nat) (file : List Nat)
    (skip_ramdisk skip_dtb skip_avb force : Bool) : Option ParseResult :=
  match parseBodyE fuel file skip_ramdisk skip_dtb skip_avb force with
  | .ok r => r
  | .error _ => none

/- Lemmas about the primitives. -/

theorem isPre_iff (n : List Nat) : ∀ l, isPre n l = true ↔ n <+: l := by
  induction n with
  | nil => intro l; simp [isPre]
  | cons a xs ih =>
    intro l
    cases l with
    | nil => simp [isPre]
    | cons b ys =>
      simp only [isPre, Bool.and_eq_true, beq_iff_eq, List.cons_prefix_cons]
      exact and_congr Iff.rfl (ih ys)

theorem listFindAux_sound (n : List Nat) :
    ∀ l i j, listFindAux n i l = some j → i ≤ j ∧ n <+: l.drop (j - i) := by
  intro l
  induction l with
  | nil =>
    intro i j h
    simp only [listFindAux] at h
    split at h
    · next hp =>
      cases h
      simpa using (isPre_iff n []).mp hp
    · cases h
  | cons a t ih =>
    intro i j h
    simp only [listFindAux] at h
    split at h
    · next hp =>
      cases h
      simpa using (isPre_iff n (a :: t)).mp hp
    · next hp =>
      obtain ⟨h1, h2⟩ := ih (i + 1) j h
      refine ⟨by omega, ?_⟩
      have hd : (a :: t).drop (j - i) = t.drop (j - (i + 1)) := by
        have : j - i = (j - (i + 1)) + 1 := by omega
        rw [this]
        rfl
      rw [hd]
      exact h2

theorem listFind_sound (n : List Nat) :
    ∀ l i, listFind n l = some i → n <+: l.drop i := by
  intro l i h
  have := (listFindAux_sound n l 0 i h).2
  simpa using this

theorem prefix_through_chunk {n file : List Nat} {pos k i : Nat}
    (h : n <+: ((file.drop pos).take k).drop i) : n <+: file.drop (pos + i) := by
  have h1 : ((file.drop pos).take k).drop i <+: (file.drop pos).drop i := by
    rw [List.drop_take]
    exact List.take_prefix _ _
  have h2 : (file.drop pos).drop i = file.drop (pos + i) := by
    rw [List.drop_drop, Nat.add_comm]
  exact (h.trans h1).trans (h2 ▸ List.prefix_refl _)

/-- Facts guaranteed whenever a DTB candidate check returns a result. -/
theorem dtbCandidate_ret {file : List Nat} {fileSize chunkLen : Nat} {tell : Int}
    {findRes : Option Nat} {m : DtbMagic} {o s : Nat} {m2 : DtbMagic}
    (h : dtbCandidate file fileSize chunkLen tell findRes m = .ret o s m2) :
    m2 = m ∧ o + 8 ≤ fileSize ∧ (m ≠ .fdt → s = 1024) ∧
      (m = .fdt → 1024 ≤ s ∧ o + s ≤ fileSize) := by
  cases findRes with
  | none => simp only [dtbCandidate] at h; cases h
  | some i =>
    simp only [dtbCandidate] at h
    unfold dtbCandidateHit at h
    by_cases h1 : (fileSize : Int) < tell - chunkLen + i + 8
    · rw [if_pos h1] at h; cases h
    · rw [if_neg h1] at h
      by_cases h2 : tell - chunkLen + i < (0 : Int)
      · rw [if_pos h2] at h; cases h
      · rw [if_neg h2] at h
        by_cases h3 : ((file.drop (tell - chunkLen + i).toNat).take 8).length < 8
        · rw [if_pos h3] at h; cases h
        · rw [if_neg h3] at h
          by_cases h4 : m = DtbMagic.fdt
          · subst h4
            rw [if_pos rfl] at h
            by_cases h5 : 1024 ≤ beVal ((((file.drop (tell - chunkLen + i).toNat).take 8).drop 4).take 4) ∧
                beVal ((((file.drop (tell - chunkLen + i).toNat).take 8).drop 4).take 4) ≤
                  min 1048576 (fileSize - (tell - chunkLen + i).toNat)
            · rw [if_pos h5] at h
              have h6 := le_trans h5.2 (Nat.min_le_right 1048576 _)
              have h7 := h5.1
              cases h
              exact ⟨rfl, by omega, by simp, fun _ => ⟨h7, by omega⟩⟩
            · rw [if_neg h5] at h; cases h
          · rw [if_neg h4] at h
            cases h
            exact ⟨rfl, by omega, fun _ => rfl, fun hf => absurd hf h4⟩

/-- The FDT candidate is always examined first in a chunk, with the file
position exactly at the end of the freshly read chunk; its reported offset is
therefore exact and the file really starts with the FDT magic there. -/
theorem dtbCandidate_fdt_starts {file : List Nat} {fileSize pos : Nat}
    {o s : Nat} {m2 : DtbMagic}
    (h : dtbCandidate file fileSize ((file.drop pos).take 16384).length
        ((pos : Int) + ((file.drop pos).take 16384).length)
        (listFind fdtMagic ((file.drop pos).take 16384)) .fdt = .ret o s m2) :
    fdtMagic <+: file.drop o := by
  cases hf : listFind fdtMagic ((file.drop pos).take 16384) with
  | none => rw [hf] at h; simp only [dtbCandidate] at h; cases h
  | some i =>
    rw [hf] at h
    simp only [dtbCandidate] at h
    unfold dtbCandidateHit at h
    set tell : Int := (pos : Int) + ((file.drop pos).take 16384).length with htell
    set chunkLen : Nat := ((file.drop pos).take 16384).length with hcl
    by_cases h1 : (fileSize : Int) < tell - chunkLen + i + 8
    · rw [if_pos h1] at h; cases h
    · rw [if_neg h1] at h
      by_cases h2 : tell - chunkLen + i < (0 : Int)
      · rw [if_pos h2] at h; cases h
      · rw [if_neg h2] at h
        by_cases h3 : ((file.drop (tell - chunkLen + i).toNat).take 8).length < 8
        · rw [if_pos h3] at h; cases h
        · rw [if_neg h3] at h
          rw [if_pos rfl] at h
          by_cases h5 : 1024 ≤ beVal ((((file.drop (tell - chunkLen + i).toNat).take 8).drop 4).take 4) ∧
              beVal ((((file.drop (tell - chunkLen + i).toNat).take 8).drop 4).take 4) ≤
                min 1048576 (fileSize - (tell - chunkLen + i).toNat)
          · rw [if_pos h5] at h
            injection h with e1 e2 e3
            have hpre := listFind_sound _ _ _ hf
            have ho : o = pos + i := by omega
            rw [ho]
            exact prefix_through_chunk hpre
          · rw [if_neg h5] at h; cases h

/-- Soundness facts that hold at every return of the DTB scan loop. -/
theorem scanDtbGo_sound (file : List Nat) (fileSize : Nat) :
    ∀ fuel pos off size m, scanDtbGo file fileSize fuel pos = some (off, size, m) →
      off + 8 ≤ fileSize ∧
      (m = DtbMagic.fdt → fdtMagic <+: file.drop off ∧ 1024 ≤ size ∧ off + size ≤ fileSize) ∧
      (m ≠ DtbMagic.fdt → size = 1024) := by
  intro fuel
  induction fuel with
  | zero => intro pos off size m h; simp [scanDtbGo] at h
  | succ n ih =>
    intro pos off size m h
    simp only [scanDtbGo] at h
    by_cases hp : fileSize ≤ pos
    · rw [if_pos hp] at h; cases h
    · rw [if_neg hp] at h
      cases hc1 : dtbCandidate file fileSize ((file.drop pos).take 16384).length
          ((pos : Int) + ((file.drop pos).take 16384).length)
          (listFind fdtMagic ((file.drop pos).take 16384)) DtbMagic.fdt with
      | ret o1 s1 m1 =>
        rw [hc1] at h
        have h2 : some (o1, s1, m1) = some (off, size, m) := h
        cases h2
        obtain ⟨hm, hle, hnf, hf⟩ := dtbCandidate_ret hc1
        subst hm
        refine ⟨hle, fun _ => ⟨dtbCandidate_fdt_starts hc1, (hf rfl).1, (hf rfl).2⟩,
          fun hne => absurd rfl hne⟩
      | exc =>
        rw [hc1] at h
        have h2 : (none : Option (Nat × Nat × DtbMagic)) = some (off, size, m) := h
        cases h2
      | cont t1 =>
        simp only [hc1] at h
        cases hc2 : dtbCandidate file fileSize ((file.drop pos).take 16384).length t1
            (listFind dtbMagicBytes ((file.drop pos).take 16384)) DtbMagic.dtb with
        | ret o2 s2 m2 =>
          rw [hc2] at h
          have h2 : some (o2, s2, m2) = some (off, size, m) := h
          cases h2
          obtain ⟨hm, hle, hnf, _⟩ := dtbCandidate_ret hc2
          subst hm
          exact ⟨hle, fun he => absurd he (by decide), fun _ => hnf (by decide)⟩
        | exc =>
          rw [hc2] at h
          have h2 : (none : Option (Nat × Nat × DtbMagic)) = some (off, size, m) := h
          cases h2
        | cont t2 =>
          simp only [hc2] at h
          cases hc3 : dtbCandidate file fileSize ((file.drop pos).take 16384).length t2
              (listFind dhtbMagicBytes ((file.drop pos).take 16384)) DtbMagic.dhtb with
          | ret o3 s3 m3 =>
            rw [hc3] at h
            have h2 : some (o3, s3, m3) = some (off, size, m) := h
            cases h2
            obtain ⟨hm, hle, hnf, _⟩ := dtbCandidate_ret hc3
            subst hm
            exact ⟨hle, fun he => absurd he (by decide), fun _ => hnf (by decide)⟩
          | exc =>
            rw [hc3] at h
            have h2 : (none : Option (Nat × Nat × DtbMagic)) = some (off, size, m) := h
            cases h2
          | cont t3 =>
            simp only [hc3] at h
            by_cases ht : t3 - ((file.drop pos).take 16384).length + 512 < (0 : Int)
            · rw [if_pos ht] at h; cases h
            · rw [if_neg ht] at h
              exact ih _ _ _ _ h

/-- C6 (amended).  Whenever `scan_for_dtb` returns `(off, size, magic)`, it
holds that `off + 8 ≤ file_size`; when the magic is the FDT magic, the file at
`off` really begins with it, `1024 ≤ size`, and `off + size ≤ file_size`.
When the magic is "DTB" or "DHTB", `size` is the 1024-byte placeholder, which
may exceed the remaining file (the original claim that
`off + size ≤ file_size` holds for all three magics is false). -/
theorem c6_amended (fuel : Nat) (file : List Nat) (start_offset fileSize off size : Nat)
    (m : DtbMagic) (h : scan_for_dtb fuel file start_offset fileSize = some (off, size, m)) :
    off + 8 ≤ fileSize ∧
    (m = DtbMagic.fdt → fdtMagic <+: file.drop off ∧ 1024 ≤ size ∧ off + size ≤ fileSize) ∧
    (m ≠ DtbMagic.fdt → size = 1024) :=
  scanDtbGo_sound file fileSize fuel start_offset off size m h

/-- An 8-byte file beginning with "DTB" followed by five NUL bytes. -/
def dtbShortFile : List Nat := [68, 84, 66, 0, 0, 0, 0, 0]

set_option maxRecDepth 100000 in
/-- C6 counterexample.  On an 8-byte file starting with "DTB", `scan_for_dtb`
returns offset 0 with the 1024-byte placeholder size, and
`off + size ≤ file_size` fails (1024 > 8). -/
theorem c6_counterexample :
    scan_for_dtb 4 dtbShortFile 0 8 = some (0, 1024, DtbMagic.dtb) ∧
    dtbShortFile.length = 8 ∧ ¬(0 + 1024 ≤ 8) := by
  refine ⟨by decide, by decide, by decide⟩

/-- A 1024-byte file that is a well-formed FDT blob: FDT magic, big-endian
totalsize 1024, zero padding. -/
def fdtSampleFile : List Nat := [0xD0, 0x0D, 0xFE, 0xED, 0, 0, 4, 0] ++ List.replicate 1016 0

set_option maxRecDepth 100000 in
/-- C6 witness: the amended theorem applied to a concrete FDT image. -/
theorem c6_witness :
    (0 : Nat) + 8 ≤ 1024 ∧
    (DtbMagic.fdt = DtbMagic.fdt →
      fdtMagic <+: fdtSampleFile.drop 0 ∧ 1024 ≤ 1024 ∧ 0 + 1024 ≤ 1024) ∧
    (DtbMagic.fdt ≠ DtbMagic.fdt → 1024 = 1024) :=
  c6_amended 4 fdtSampleFile 0 1024 0 1024 DtbMagic.fdt (by decide)

/-- Facts guaranteed whenever a ramdisk candidate check returns a result:
the returned size is exactly the `next_magic` formula evaluated on the file at
the returned offset, at least 1024, and at most `file_size - off`. -/
theorem rdCandidateHit_ret {file : List Nat} {fileSize chunkLen : Nat} {tell : Int}
    {i : Nat} {comp : String} {o s : Nat} {c : String}
    (h : rdCandidateHit file fileSize chunkLen tell i comp = .ret o s c) :
    s = ramdiskSizeAt file fileSize o ∧ 1024 ≤ s ∧ s ≤ fileSize - o ∧
      o + 8 ≤ fileSize ∧ c = comp := by
  unfold rdCandidateHit at h
  by_cases h1 : (fileSize : Int) < tell - chunkLen + i + 8
  · rw [if_pos h1] at h; cases h
  · rw [if_neg h1] at h
    by_cases h2 : tell - chunkLen + i < (0 : Int)
    · rw [if_pos h2] at h; cases h
    · rw [if_neg h2] at h
      by_cases h3 : ((file.drop (tell - chunkLen + i).toNat).take 8).length < 8
      · rw [if_pos h3] at h; cases h
      · rw [if_neg h3] at h
        by_cases h4 : ramdiskSizeAt file fileSize (tell - chunkLen + i).toNat < 1024 ∨
            fileSize - (tell - chunkLen + i).toNat <
              ramdiskSizeAt file fileSize (tell - chunkLen + i).toNat
        · rw [if_pos h4] at h; cases h
        · rw [if_neg h4] at h
          cases h
          push_neg at h4
          exact ⟨rfl, h4.1, h4.2, by omega, rfl⟩

/-- Soundness facts that hold at every return of the ramdisk scan loop. -/
theorem scanRdGo_sound (file : List Nat) (fileSize : Nat) :
    ∀ fuel pos off size c, scanRdGo file fileSize fuel pos = some (off, size, c) →
      size = ramdiskSizeAt file fileSize off ∧ 1024 ≤ size ∧
      size ≤ fileSize - off ∧ off + 8 ≤ fileSize := by
  intro fuel
  induction fuel with
  | zero => intro pos off size c h; simp [scanRdGo] at h
  | succ n ih =>
    intro pos off size c h
    simp only [scanRdGo] at h
    by_cases hp : fileSize ≤ pos
    · rw [if_pos hp] at h; cases h
    · rw [if_neg hp] at h
      cases hc1 : rdCandidate file fileSize ((file.drop pos).take 16384).length
          ((pos : Int) + ((file.drop pos).take 16384).length)
          (listFind gzipMagic ((file.drop pos).take 16384)) "gzip" with
      | ret o1 s1 c1 =>
        rw [hc1] at h
        have h2 : some (o1, s1, c1) = some (off, size, c) := h
        cases h2
        cases hf : listFind gzipMagic ((file.drop pos).take 16384) with
        | none => rw [hf] at hc1; simp only [rdCandidate] at hc1; cases hc1
        | some i =>
          rw [hf] at hc1; simp only [rdCandidate] at hc1
          obtain ⟨ha, hb, hc, hd, _⟩ := rdCandidateHit_ret hc1
          exact ⟨ha, hb, hc, hd⟩
      | exc =>
        rw [hc1] at h
        have h2 : (none : Option (Nat × Nat × String)) = some (off, size, c) := h
        cases h2
      | cont t1 =>
        simp only [hc1] at h
        cases hc2 : rdCandidate file fileSize ((file.drop pos).take 16384).length t1
            (listFind lz4Magic ((file.drop pos).take 16384)) "lz4" with
        | ret o2 s2 c2 =>
          rw [hc2] at h
          have h2 : some (o2, s2, c2) = some (off, size, c) := h
          cases h2
          cases hf : listFind lz4Magic ((file.drop pos).take 16384) with
          | none => rw [hf] at hc2; simp only [rdCandidate] at hc2; cases hc2
          | some i =>
            rw [hf] at hc2; simp only [rdCandidate] at hc2
            obtain ⟨ha, hb, hc, hd, _⟩ := rdCandidateHit_ret hc2
            exact ⟨ha, hb, hc, hd⟩
        | exc =>
          rw [hc2] at h
          have h2 : (none : Option (Nat × Nat × String)) = some (off, size, c) := h
          cases h2
        | cont t2 =>
          simp only [hc2] at h
          cases hc3 : rdCandidate file fileSize ((file.drop pos).take 16384).length t2
              (listFind zstdMagic ((file.drop pos).take 16384)) "zstd" with
          | ret o3 s3 c3 =>
            rw [hc3] at h
            have h2 : some (o3, s3, c3) = some (off, size, c) := h
            cases h2
            cases hf : listFind zstdMagic ((file.drop pos).take 16384) with
            | none => rw [hf] at hc3; simp only [rdCandidate] at hc3; cases hc3
            | some i =>
              rw [hf] at hc3; simp only [rdCandidate] at hc3
              obtain ⟨ha, hb, hc, hd, _⟩ := rdCandidateHit_ret hc3
              exact ⟨ha, hb, hc, hd⟩
          | exc =>
            rw [hc3] at h
            have h2 : (none : Option (Nat × Nat × String)) = some (off, size, c) := h
            cases h2
          | cont t3 =>
            simp only [hc3] at h
            cases hc4 : rdCandidate file fileSize ((file.drop pos).take 16384).length t3
                (listFind cpioMagic1 ((file.drop pos).take 16384)) "cpio" with
            | ret o4 s4 c4 =>
              rw [hc4] at h
              have h2 : some (o4, s4, c4) = some (off, size, c) := h
              cases h2
              cases hf : listFind cpioMagic1 ((file.drop pos).take 16384) with
              | none => rw [hf] at hc4; simp only [rdCandidate] at hc4; cases hc4
              | some i =>
                rw [hf] at hc4; simp only [rdCandidate] at hc4
                obtain ⟨ha, hb, hc, hd, _⟩ := rdCandidateHit_ret hc4
                exact ⟨ha, hb, hc, hd⟩
            | exc =>
              rw [hc4] at h
              have h2 : (none : Option (Nat × Nat × String)) = some (off, size, c) := h
              cases h2
            | cont t4 =>
              simp only [hc4] at h
              cases hc5 : rdCandidate file fileSize ((file.drop pos).take 16384).length t4
                  (listFind cpioMagic2 ((file.drop pos).take 16384)) "cpio" with
              | ret o5 s5 c5 =>
                rw [hc5] at h
                have h2 : some (o5, s5, c5) = some (off, size, c) := h
                cases h2
                cases hf : listFind cpioMagic2 ((file.drop pos).take 16384) with
                | none => rw [hf] at hc5; simp only [rdCandidate] at hc5; cases hc5
                | some i =>
                  rw [hf] at hc5; simp only [rdCandidate] at hc5
                  obtain ⟨ha, hb, hc, hd, _⟩ := rdCandidateHit_ret hc5
                  exact ⟨ha, hb, hc, hd⟩
              | exc =>
                rw [hc5] at h
                have h2 : (none : Option (Nat × Nat × String)) = some (off, size, c) := h
                cases h2
              | cont t5 =>
                simp only [hc5] at h
                by_cases ht : t5 - ((file.drop pos).take 16384).length + 512 < (0 : Int)
                · rw [if_pos ht] at h; cases h
                · rw [if_neg ht] at h
                  exact ih _ _ _ _ h

/-- C7 (amended).  Whenever `scan_for_ramdisk` returns `(r, size, comp)`: the
size equals the `next_magic` formula at `r`, in which each of the six
signatures (five ramdisk magics and "ANDROID!") contributes only its FIRST
occurrence in the remainder, and only when that first occurrence is at a
position `p > 0` (a later occurrence of a signature whose first occurrence is
at position 0 is invisible); with no contributing signature the size is
`file_size - r`.  Sizes below 1024 or above `file_size - r` are rejected and
the scan continues, so the returned size satisfies
`1024 ≤ size ≤ file_size - r`. -/
theorem c7_amended (fuel : Nat) (file : List Nat) (start_offset fileSize r size : Nat)
    (comp : String)
    (h : scan_for_ramdisk fuel file start_offset fileSize = some (r, size, comp)) :
    size = nextMagicFold ((file.drop r).take (fileSize - r)) r fileSize - r ∧
    1024 ≤ size ∧ size ≤ fileSize - r ∧ r + 8 ≤ fileSize :=
  scanRdGo_sound file fileSize fuel start_offset r size comp h

/-- A 1026-byte file with a gzip magic at offset 0 and another at offset 1024,
zeros in between. -/
def gzipTwiceFile : List Nat := gzipMagic ++ List.replicate 1022 0 ++ gzipMagic

set_option maxRecDepth 1000000 in
/-- C7 counterexample.  On `gzipTwiceFile` the next occurrence of a ramdisk
magic at a position `p > 0` is the gzip magic at p = 1024 (its first
occurrence in the remainder from the hit is at position 0, and no other
signature occurs at all), so the claimed size rule yields 1024; but the scan
returns `file_size - r = 1026`, because the second gzip occurrence is
invisible to the `find`-based rule. -/
theorem c7_counterexample :
    scan_for_ramdisk 4 gzipTwiceFile 0 1026 = some (0, 1026, "gzip") ∧
    listFind gzipMagic (gzipTwiceFile.drop 1) = some 1023 ∧
    listFind lz4Magic gzipTwiceFile = none ∧
    listFind zstdMagic gzipTwiceFile = none ∧
    listFind cpioMagic1 gzipTwiceFile = none ∧
    listFind cpioMagic2 gzipTwiceFile = none ∧
    listFind androidMagic gzipTwiceFile = none ∧
    (1026 : Nat) ≠ 1024 := by
  refine ⟨by decide, by decide, by decide, by decide, by decide, by decide, by decide, by decide⟩

set_option maxRecDepth 1000000 in
/-- C7 witness: the amended theorem applied to the concrete scan above. -/
theorem c7_witness :
    (1026 : Nat) = nextMagicFold ((gzipTwiceFile.drop 0).take (1026 - 0)) 0 1026 - 0 ∧
    1024 ≤ 1026 ∧ (1026 : Nat) ≤ 1026 - 0 ∧ (0 : Nat) + 8 ≤ 1026 :=
  c7_amended 4 gzipTwiceFile 0 1026 0 1026 "gzip" (by decide)


/- Lemmas about the parse phases. -/

theorem dtbScanStep_fst_none_iff (fuel : Nat) (file : List Nat) (sd : Bool)
    (hf : HeaderFields) :
    (dtbScanStep fuel file sd hf).1 = none ↔
      (sd = false ∧ hf.dtb_size0 = 0 ∧ hf.dtb_size_v4 = 0 ∧
        scan_for_dtb fuel file hf.page_size file.length = none) := by
  unfold dtbScanStep
  by_cases hc : sd = false ∧ hf.dtb_size0 = 0 ∧ hf.dtb_size_v4 = 0
  · rw [if_pos hc]
    cases hs : scan_for_dtb fuel file hf.page_size file.length with
    | none => simp [hs, hc]
    | some t =>
      obtain ⟨o, s, m⟩ := t
      simp [hs]
  · rw [if_neg hc]
    constructor
    · intro hx; cases hx
    · intro hx; exact absurd ⟨hx.1, hx.2.1, hx.2.2.1⟩ hc

theorem dtbScanStep_snd_none (fuel : Nat) (file : List Nat) (sd : Bool)
    (hf : HeaderFields) (h : (dtbScanStep fuel file sd hf).1 = none) :
    (dtbScanStep fuel file sd hf).2 = none := by
  unfold dtbScanStep at h ⊢
  by_cases hc : sd = false ∧ hf.dtb_size0 = 0 ∧ hf.dtb_size_v4 = 0
  · rw [if_pos hc] at h ⊢
    cases hs : scan_for_dtb fuel file hf.page_size file.length with
    | none => rfl
    | some t =>
      obtain ⟨o, s, m⟩ := t
      rw [hs] at h
      have h2 : (some o : Option Nat) = none := h
      cases h2
  · rw [if_neg hc] at h
    cases h

theorem rdScanStep_offset (fuel : Nat) (file : List Nat) (sr : Bool)
    (hf : HeaderFields) (n : Nat)
    (hs : (rdScanStep fuel file sr hf).2.1 = some n) (hn : n ≠ 0) :
    ∃ m, (rdScanStep fuel file sr hf).1 = some m := by
  unfold rdScanStep at hs ⊢
  by_cases hc : sr = false ∧ hf.ramdisk_size0 = 0
  · rw [if_pos hc] at hs ⊢
    cases hr : scan_for_ramdisk fuel file hf.page_size file.length with
    | none =>
      rw [hr] at hs
      have h2 : (none : Option Nat) = some n := hs
      cases h2
    | some t =>
      obtain ⟨o, s, c⟩ := t
      exact ⟨o, rfl⟩
  · rw [if_neg hc] at hs ⊢
    have h2 : some hf.ramdisk_size0 = some n := hs
    cases h2
    rw [if_pos hn]
    exact ⟨_, rfl⟩

theorem secondOffsetStep_ok (fuel : Nat) (file : List Nat) (sr : Bool)
    (hf : HeaderFields) :
    ∃ k, secondOffsetStep hf (rdScanStep fuel file sr hf).1
      (rdScanStep fuel file sr hf).2.1 = .ok k := by
  unfold secondOffsetStep
  cases hs : (rdScanStep fuel file sr hf).2.1 with
  | none => exact ⟨_, rfl⟩
  | some rs =>
    by_cases hn : rs ≠ 0
    · obtain ⟨m, hm⟩ := rdScanStep_offset fuel file sr hf rs hs hn
      refine ⟨align_size (m + rs) hf.page_size, ?_⟩
      simp [hm, hn]
    · refine ⟨align_size (hf.page_size + hf.kernel_size) hf.page_size, ?_⟩
      simp [hn]

theorem parseLayout_ok_elim {fuel : Nat} {file : List Nat} {sr sd sa : Bool}
    {hf : HeaderFields} {li : LayoutInfo}
    (hl : parseLayout fuel file sr sd sa hf = .ok li) :
    ∃ so vo,
      secondOffsetStep hf (rdScanStep fuel file sr hf).1
        (rdScanStep fuel file sr hf).2.1 = .ok so ∧
      vendorOffsetStep hf
        (if truthy (dtbScanStep fuel file sd hf).2 = true ∧
            (dtbScanStep fuel file sd hf).1 = none then
          some (align_size (so + hf.second_size) hf.page_size)
        else (dtbScanStep fuel file sd hf).1) (dtbScanStep fuel file sd hf).2 = .ok vo ∧
      li = { dtb_offset :=
                (if truthy (dtbScanStep fuel file sd hf).2 = true ∧
                    (dtbScanStep fuel file sd hf).1 = none then
                  some (align_size (so + hf.second_size) hf.page_size)
                else (dtbScanStep fuel file sd hf).1)
             dtb_size := (dtbScanStep fuel file sd hf).2
             ramdisk_offset := (rdScanStep fuel file sr hf).1
             ramdisk_size := (rdScanStep fuel file sr hf).2.1
             ramdisk_compression := (rdScanStep fuel file sr hf).2.2
             kernel_offset := hf.page_size
             second_offset := so
             recovery_dtbo_offset :=
               if hf.recovery_dtbo_size ≠ 0 then hf.recovery_dtbo_offset0 else 0
             vendor_ramdisk_offset := vo
             avb := if sa then none
               else scan_for_avb fuel file hf.page_size file.length } := by
  simp only [parseLayout] at hl
  cases hs : secondOffsetStep hf (rdScanStep fuel file sr hf).1
      (rdScanStep fuel file sr hf).2.1 with
  | error e =>
    rw [hs] at hl
    have h2 : (Except.error e : Except PyErr LayoutInfo) = .ok li := hl
    cases h2
  | ok so =>
    simp only [hs] at hl
    cases hv : vendorOffsetStep hf
        (if truthy (dtbScanStep fuel file sd hf).2 = true ∧
            (dtbScanStep fuel file sd hf).1 = none then
          some (align_size (so + hf.second_size) hf.page_size)
        else (dtbScanStep fuel file sd hf).1) (dtbScanStep fuel file sd hf).2 with
    | error e =>
      rw [hv] at hl
      have h2 : (Except.error e : Except PyErr LayoutInfo) = .ok li := hl
      cases h2
    | ok vo =>
      simp only [hv] at hl
      have h2 := Except.ok.inj hl
      exact ⟨so, vo, rfl, hv, h2.symm⟩

theorem parseLayout_error_iff (fuel : Nat) (file : List Nat) (sr sd sa : Bool)
    (hf : HeaderFields) :
    (∃ e, parseLayout fuel file sr sd sa hf = .error e) ↔
      (hf.vendor_ramdisk_size ≠ 0 ∧ sd = false ∧ hf.dtb_size0 = 0 ∧
        hf.dtb_size_v4 = 0 ∧
        scan_for_dtb fuel file hf.page_size file.length = none) := by
  have hB : ¬(truthy (dtbScanStep fuel file sd hf).2 = true ∧
      (dtbScanStep fuel file sd hf).1 = none) := by
    rintro ⟨h1, h2⟩
    rw [dtbScanStep_snd_none fuel file sd hf h2] at h1
    cases h1
  obtain ⟨so, hs⟩ := secondOffsetStep_ok fuel file sr hf
  constructor
  · rintro ⟨e, he⟩
    simp only [parseLayout] at he
    simp only [hs] at he
    rw [if_neg hB] at he
    cases hv : vendorOffsetStep hf (dtbScanStep fuel file sd hf).1
        (dtbScanStep fuel file sd hf).2 with
    | error e2 =>
      unfold vendorOffsetStep at hv
      by_cases hvs : hf.vendor_ramdisk_size ≠ 0
      · rw [if_pos hvs] at hv
        cases hd : (dtbScanStep fuel file sd hf).1 with
        | none =>
          have hcond := (dtbScanStep_fst_none_iff fuel file sd hf).mp hd
          exact ⟨hvs, hcond.1, hcond.2.1, hcond.2.2.1, hcond.2.2.2⟩
        | some d =>
          rw [hd] at hv
          cases hv
      · rw [if_neg hvs] at hv
        cases hv
    | ok vo =>
      rw [hv] at he
      simp at he
  · rintro ⟨hvs, hsd, h0, hv4, hscan⟩
    have hd : (dtbScanStep fuel file sd hf).1 = none :=
      (dtbScanStep_fst_none_iff fuel file sd hf).mpr ⟨hsd, h0, hv4, hscan⟩
    have hv : vendorOffsetStep hf (dtbScanStep fuel file sd hf).1
        (dtbScanStep fuel file sd hf).2 = .error .typeError := by
      unfold vendorOffsetStep
      rw [if_pos hvs, hd]
    refine ⟨PyErr.typeError, ?_⟩
    simp only [parseLayout]
    simp only [hs]
    rw [if_neg hB]
    simp [hv]

theorem parse_some_elim {fuel : Nat} {file : List Nat} {sr sd sa force : Bool}
    {r : ParseResult}
    (h : parse_boot_image fuel file sr sd sa force = some r) :
    160 ≤ file.length ∧
    ∃ li, parseLayout fuel file sr sd sa (parseHeaderFields (file.take 1664)) = .ok li ∧
      r = assembleResult (parseHeaderFields (file.take 1664)) li
        (parseExtract file sr sd sa (parseHeaderFields (file.take 1664)) li) := by
  unfold parse_boot_image parseBodyE at h
  by_cases h1 : file.length < 160
  · rw [if_pos h1] at h
    have h2 : (none : Option ParseResult) = some r := h
    cases h2
  · rw [if_neg h1] at h
    by_cases h2 : file.take 8 ≠ androidMagic ∧ force = false
    · rw [if_pos h2] at h
      have h3 : (none : Option ParseResult) = some r := h
      cases h3
    · rw [if_neg h2] at h
      cases hl : parseLayout fuel file sr sd sa (parseHeaderFields (file.take 1664)) with
      | error e =>
        simp only [hl] at h
        exact absurd h (by simp)
      | ok li =>
        simp only [hl] at h
        exact ⟨by omega, li, rfl, (Option.some.inj h).symm⟩

theorem parseHeaderFields_crash_iff (header : List Nat) (hlen : 96 ≤ header.length) :
    ((parseHeaderFields header).vendor_ramdisk_size ≠ 0 ∧
      (parseHeaderFields header).dtb_size0 = 0 ∧
      (parseHeaderFields header).dtb_size_v4 = 0) ↔
    (le32 header 40 = 4 ∧ le32 header 80 ≠ 0 ∧ le32 header 84 = 0) := by
  have hv1 : (parseHeaderFields header).vendor_ramdisk_size =
      if 4 ≤ (if 4 < le32 header 40 then 0 else le32 header 40) ∧ 96 ≤ header.length
      then le32 header 80 else 0 := rfl
  have hd1 : (parseHeaderFields header).dtb_size0 =
      if 4 < le32 header 40 then le32 header 44 else 0 := rfl
  have hd2 : (parseHeaderFields header).dtb_size_v4 =
      if 4 ≤ (if 4 < le32 header 40 then 0 else le32 header 40) ∧ 96 ≤ header.length
      then le32 header 84 else 0 := rfl
  rw [hv1, hd1, hd2]
  by_cases hv : 4 < le32 header 40
  · have hc2 : ¬(4 ≤ (0 : Nat) ∧ 96 ≤ header.length) := by omega
    simp only [if_pos hv, if_neg hc2]
    constructor
    · rintro ⟨hvs, -⟩; exact absurd rfl hvs
    · rintro ⟨h40, -⟩; omega
  · by_cases h4 : le32 header 40 = 4
    · have hc2 : 4 ≤ le32 header 40 ∧ 96 ≤ header.length := by omega
      simp only [if_neg hv, if_pos hc2]
      constructor
      · rintro ⟨hvs, -, hz⟩; exact ⟨h4, hvs, hz⟩
      · rintro ⟨-, hvs, hz⟩; exact ⟨hvs, trivial, hz⟩
    · have hc2 : ¬(4 ≤ le32 header 40 ∧ 96 ≤ header.length) := by omega
      simp only [if_neg hv, if_neg hc2]
      constructor
      · rintro ⟨hvs, -⟩; exact absurd rfl hvs
      · rintro ⟨h40, -⟩; exact absurd h40 h4

/-- C8 (amended).  With the embedding treating file-system writes as
successful, `parse_boot_image` returns the empty result exactly when: the file
is smaller than 160 bytes; or the magic is not "ANDROID!" and force is off; or
a version-4 header declares `vendor_ramdisk_size > 0` and a zero v4 dtb size
while the DTB scan (not skipped) finds nothing, in which case
`align_size(None + 0, ...)` raises a `TypeError` that the outer handler turns
into the empty result.  The original claim (bad magic on a 160-byte-or-larger
file is the only fatal condition) misses the first and third cases. -/
theorem c8_amended (fuel : Nat) (file : List Nat) (sr sd sa force : Bool) :
    parse_boot_image fuel file sr sd sa force = none ↔
      (file.length < 160 ∨
        (file.take 8 ≠ androidMagic ∧ force = false) ∨
        (le32 (file.take 1664) 40 = 4 ∧ le32 (file.take 1664) 80 ≠ 0 ∧
          le32 (file.take 1664) 84 = 0 ∧ sd = false ∧
          scan_for_dtb fuel file (clampPage (le32 (file.take 1664) 36))
            file.length = none)) := by
  unfold parse_boot_image parseBodyE
  by_cases h1 : file.length < 160
  · rw [if_pos h1]
    simp [h1]
  · rw [if_neg h1]
    by_cases h2 : file.take 8 ≠ androidMagic ∧ force = false
    · rw [if_pos h2]
      simp [h1, h2]
    · rw [if_neg h2]
      have hlen : 96 ≤ (file.take 1664).length := by
        rw [List.length_take]
        omega
      have hiff := parseHeaderFields_crash_iff (file.take 1664) hlen
      have hpage : (parseHeaderFields (file.take 1664)).page_size =
          clampPage (le32 (file.take 1664) 36) := rfl
      constructor
      · intro hx
        cases hl : parseLayout fuel file sr sd sa (parseHeaderFields (file.take 1664)) with
        | ok li =>
          simp only [hl] at hx
          exact absurd hx (by simp)
        | error e =>
          have hcond := (parseLayout_error_iff fuel file sr sd sa
            (parseHeaderFields (file.take 1664))).mp ⟨e, hl⟩
          obtain ⟨hc1, hc2, hc3⟩ := hiff.mp ⟨hcond.1, hcond.2.2.1, hcond.2.2.2.1⟩
          right; right
          refine ⟨hc1, hc2, hc3, hcond.2.1, ?_⟩
          rw [← hpage]
          exact hcond.2.2.2.2
      · intro hx
        rcases hx with hx | hx | hx
        · omega
        · exact absurd hx h2
        · have hcond := hiff.mpr ⟨hx.1, hx.2.1, hx.2.2.1⟩
          obtain ⟨e, hl⟩ := (parseLayout_error_iff fuel file sr sd sa
            (parseHeaderFields (file.take 1664))).mpr
            ⟨hcond.1, hx.2.2.2.1, hcond.2.1, hcond.2.2,
              by rw [hpage]; exact hx.2.2.2.2⟩
          simp only [hl]

/-- A 100-byte file that begins with a valid "ANDROID!" magic. -/
def smallMagicFile : List Nat := androidMagic ++ List.replicate 92 0

/-- C8 counterexample.  A 100-byte file with a valid magic: per the claim the
only fatal condition is a bad magic on a file of at least 160 bytes, so this
file should be processed, but `parse_boot_image` returns the empty result
(the `file_size < 160` check at src lines 176-178). -/
theorem c8_counterexample :
    parse_boot_image 4 smallMagicFile false false true false = none ∧
    smallMagicFile.length = 100 ∧
    smallMagicFile.take 8 = androidMagic := by
  refine ⟨by decide, by decide, by decide⟩

/-- An empty model, used only as the default for `Option.getD`. -/
def emptyParseResult : ParseResult :=
  { kernel_size := 0, ramdisk_size := none, second_size := 0, dtb_size := none,
    recovery_dtbo_size := 0, vendor_ramdisk_size := 0, page_size := 0,
    header_version := 0, kernel_addr := 0, ramdisk_addr := 0, second_addr := 0,
    tags_addr := 0, ramdisk_compression := none, kernel_offset := 0,
    ramdisk_offset := none, second_offset := 0, dtb_offset := none,
    recovery_dtbo_offset := 0, vendor_ramdisk_offset := 0, kernelData := none,
    ramdiskData := none, secondData := none, dtbData := none,
    recoveryData := none, vendorData := none, avbData := none }

/-- C9 (confirmed).  `extract_component` produces nothing whenever the offset
is 0, whatever the size; consequently, when a legacy header
(`header_version > 4`, treated as v0) recovers a non-zero `dtb_size` from
`extra_field` while `dtb_offset` stays 0, the dtb payload is never
extracted. -/
theorem c9_zero_offset_skip :
    (∀ (file : List Nat) (size : Nat), extract_component file 0 size = none) ∧
    (∀ (fuel : Nat) (file : List Nat) (sr sd sa force : Bool) (r : ParseResult),
      parse_boot_image fuel file sr sd sa force = some r →
      4 < le32 (file.take 1664) 40 → le32 (file.take 1664) 44 ≠ 0 →
      r.dtbData = none) := by
  constructor
  · intro file size
    unfold extract_component
    rw [if_neg]
    rintro ⟨-, h2⟩
    exact h2 rfl
  · intro fuel file sr sd sa force r hr hv hx
    obtain ⟨hlen, li, hl, hres⟩ := parse_some_elim hr
    obtain ⟨so, vo, hs, hvo, hli⟩ := parseLayout_ok_elim hl
    have hsz0 : (parseHeaderFields (file.take 1664)).dtb_size0 =
        le32 (file.take 1664) 44 := by
      have he : (parseHeaderFields (file.take 1664)).dtb_size0 =
          if 4 < le32 (file.take 1664) 40 then le32 (file.take 1664) 44 else 0 := rfl
      rw [he, if_pos hv]
    have hv4 : (parseHeaderFields (file.take 1664)).dtb_size_v4 = 0 := by
      have he : (parseHeaderFields (file.take 1664)).dtb_size_v4 =
          if 4 ≤ (if 4 < le32 (file.take 1664) 40 then 0 else le32 (file.take 1664) 40) ∧
              96 ≤ (file.take 1664).length
          then le32 (file.take 1664) 84 else 0 := rfl
      rw [he, if_neg]
      rw [if_pos hv]
      omega
    have hdstep : dtbScanStep fuel file sd (parseHeaderFields (file.take 1664)) =
        (some (parseHeaderFields (file.take 1664)).dtb_addr,
          some (parseHeaderFields (file.take 1664)).dtb_size0) := by
      unfold dtbScanStep
      have hc1 : ¬(sd = false ∧ (parseHeaderFields (file.take 1664)).dtb_size0 = 0 ∧
          (parseHeaderFields (file.take 1664)).dtb_size_v4 = 0) := by
        rintro ⟨-, h3, -⟩
        rw [hsz0] at h3
        exact hx h3
      rw [if_neg hc1]
      have hc2 : ¬((parseHeaderFields (file.take 1664)).dtb_size_v4 ≠ 0) := by
        rw [hv4]
        exact fun hh => hh rfl
      rw [if_neg hc2]
    have haddr : (parseHeaderFields (file.take 1664)).dtb_addr = 0 := rfl
    subst hres
    subst hli
    simp [assembleResult, parseExtract, hdstep, truthy, haddr]

/-- A 160-byte file: "ANDROID!", header_version 5 at offset 40, extra_field 1
at offset 44, zeros elsewhere. -/
def legacyV5File : List Nat :=
  androidMagic ++ List.replicate 32 0 ++ [5, 0, 0, 0] ++ [1, 0, 0, 0] ++
    List.replicate 112 0

set_option maxRecDepth 100000 in
/-- C9 witness: both parts of the theorem applied at concrete inputs. -/
theorem c9_witness :
    extract_component (List.replicate 20 9) 0 5 = none ∧
    ((parse_boot_image 4 legacyV5File true true true false).getD
      emptyParseResult).dtbData = none :=
  ⟨c9_zero_offset_skip.1 (List.replicate 20 9) 5,
    c9_zero_offset_skip.2 4 legacyV5File true true true false
      ((parse_boot_image 4 legacyV5File true true true false).getD emptyParseResult)
      (by rfl) (by decide) (by decide)⟩

/-- C10 (confirmed).  Any exception raised inside the body of
`parse_boot_image` is caught (the outer handler at src lines 508-510 together
with the `timeout` decorator default) and the empty dictionary is returned, so
the function always hands its caller a dictionary and never propagates an
exception. -/
theorem c10_exception_to_empty (fuel : Nat) (file : List Nat)
    (sr sd sa force : Bool) (e : PyErr)
    (h : parseBodyE fuel file sr sd sa force = .error e) :
    parse_boot_image fuel file sr sd sa force = none := by
  unfold parse_boot_image
  rw [h]

/-- A 160-byte file triggering the internal TypeError: version 4, vendor
ramdisk size 1, no dtb, nothing for the scan to find. -/
def v4VendorCrashFile : List Nat :=
  androidMagic ++ List.replicate 32 0 ++ [4, 0, 0, 0] ++ List.replicate 36 0 ++
    [1, 0, 0, 0] ++ List.replicate 76 0

set_option maxRecDepth 100000 in
/-- C10 witness: a concrete input whose body raises `TypeError`, and the
caught result. -/
theorem c10_witness :
    parseBodyE 4 v4VendorCrashFile false false true false = .error PyErr.typeError ∧
    parse_boot_image 4 v4VendorCrashFile false false true false = none :=
  ⟨by rfl,
    c10_exception_to_empty 4 v4VendorCrashFile false false true false PyErr.typeError
      (by rfl)⟩


/- The repacker (src lines 688-790). -/

/-- A Python value passed to `struct.pack`. -/
inductive PyVal where
  | bytes (b : List Nat)
  | int (n : Nat)

/-- A field of a struct format string: `.str n` is "ns", `.u32` is "I". -/
inductive FieldSpec where
  | str (n : Nat)
  | u32

/-- Packing of one value against one format field: "ns" truncates or
NUL-pads byte strings to `n` bytes and rejects non-bytes; "<I" rejects
anything but an integer below 2^32. -/
def packField : FieldSpec → PyVal → Except PyErr (List Nat)
  | .str n, .bytes b => .ok (b.take n ++ List.replicate (n - b.length) 0)
  | .str _, .int _ => .error .structPackValue
  | .u32, .int v =>
    if v < 4294967296 then
      .ok [v % 256, v / 256 % 256, v / 65536 % 256, v / 16777216 % 256]
    else .error .structPackValue
  | .u32, .bytes _ => .error .structPackValue

/-- Pack a list of values against a list of format fields (equal lengths
assumed, enforced by `structPack`). -/
def packFields : List FieldSpec → List PyVal → Except PyErr (List Nat)
  | [], [] => .ok []
  | f :: fs, v :: vs =>
    match packField f v with
    | .error e => .error e
    | .ok b =>
      match packFields fs vs with
      | .error e => .error e
      | .ok rest => .ok (b ++ rest)
  | _, _ => .error .structPackArity

/-- Model of Python `struct.pack`: the number of values must equal the number
of format fields, otherwise `struct.error` ("pack expected N items") is
raised before anything is packed. -/
def structPack (fields : List FieldSpec) (vals : List PyVal) : Except PyErr (List Nat) :=
  if fields.length ≠ vals.length then .error .structPackArity
  else packFields fields vals

/-- The format string of src line 751, `<8sIIIIIIIII16s512s32s496s16s`:
one 8-byte string, NINE u32 fields, then 16s 512s 32s 496s 16s —
15 fields in total. -/
def repackFormat : List FieldSpec :=
  [.str 8, .u32, .u32, .u32, .u32, .u32, .u32, .u32, .u32, .u32,
   .str 16, .str 512, .str 32, .str 496, .str 16]

/-- The `header_info` dictionary entries `repack_boot_image` reads
(src lines 691-768).  `recovery_dtbo_size` and `dtb_addr` are read with
`.get(key, 0)` and default to 0; the byte-string fields come from the
extraction model. -/
structure RepackInput where
  page_size : Nat
  kernel_addr : Nat
  ramdisk_addr : Nat
  second_addr : Nat
  tags_addr : Nat
  recovery_dtbo_size : Nat
  dtb_addr : Nat
  os_version : List Nat
  name : List Nat
  cmdline : List Nat
  id : List Nat
  extra_cmdline : List Nat
  board_name : List Nat

/-- The component files `repack_boot_image` reads from the components
directory (src lines 692-741): `none` models a missing file (size 0, empty
data). -/
structure Components where
  kernel : Option (List Nat)
  ramdisk : Option (List Nat)
  second : Option (List Nat)
  dtb : Option (List Nat)
  recovery_dtbo : Option (List Nat)
  vendor_ramdisk : Option (List Nat)

/-- Offsets computed by the repack planner (src lines 743-748). -/
structure Offsets where
  kernel_offset : Nat
  ramdisk_offset : Nat
  second_offset : Nat
  dtb_offset : Nat
  recovery_dtbo_offset : Nat
  vendor_ramdisk_offset : Nat
deriving DecidableEq

/-- The repack planner (src lines 743-748): kernel at `page_size`; ramdisk,
second and dtb offsets chained unconditionally through `align_size`;
`recovery_dtbo_offset` chained only when recovery_dtbo is present, else 0;
`vendor_ramdisk_offset` chained FROM `recovery_dtbo_offset` (which is 0 when
recovery_dtbo is absent) only when the vendor ramdisk is present, else 0. -/
def repack_offsets (page_size kernel_size ramdisk_size second_size dtb_size
    recovery_dtbo_size vendor_ramdisk_size : Nat) : Offsets :=
  let kernel_offset := page_size
  let ramdisk_offset := align_size (kernel_offset + kernel_size) page_size
  let second_offset := align_size (ramdisk_offset + ramdisk_size) page_size
  let dtb_offset := align_size (second_offset + second_size) page_size
  let recovery_dtbo_offset :=
    if recovery_dtbo_size ≠ 0 then align_size (dtb_offset + dtb_size) page_size else 0
  let vendor_ramdisk_offset :=
    if vendor_ramdisk_size ≠ 0 then
      align_size (recovery_dtbo_offset + recovery_dtbo_size) page_size
    else 0
  { kernel_offset := kernel_offset, ramdisk_offset := ramdisk_offset,
    second_offset := second_offset, dtb_offset := dtb_offset,
    recovery_dtbo_offset := recovery_dtbo_offset,
    vendor_ramdisk_offset := vendor_ramdisk_offset }

/-- The `struct.pack` call of src lines 750-769: 17 values (the magic, TEN
integers, six byte strings) against the 15-field format — `struct.error` is
raised for every input. -/
def repack_pack_header (h : RepackInput)
    (kernel_size ramdisk_size second_size : Nat) : Except PyErr (List Nat) :=
  structPack repackFormat
    [.bytes androidMagic, .int kernel_size, .int h.kernel_addr,
     .int ramdisk_size, .int h.ramdisk_addr, .int second_size,
     .int h.second_addr, .int h.tags_addr, .int h.page_size,
     .int h.recovery_dtbo_size, .int h.dtb_addr, .bytes h.os_version,
     .bytes h.name, .bytes h.cmdline, .bytes h.id, .bytes h.extra_cmdline,
     .bytes h.board_name]

/-- The writer (src lines 771-790): header plus zero padding to one page,
then each present payload preceded by `b"\x00" * (target_offset - f.tell())`
zero bytes.  In Python a byte string times a NEGATIVE count is EMPTY, which
truncated natural subtraction models exactly: a negative gap is silently
absorbed and the payload is written at the current end of file, with no
check and no error. -/
def write_image (header : List Nat) (page_size : Nat) (off : Offsets)
    (kernel_data ramdisk_data second_data dtb_data recovery_data
      vendor_data : List Nat) : List Nat :=
  let img := header ++ List.replicate (page_size - header.length) 0
  let img := if kernel_data.length ≠ 0 then img ++ kernel_data else img
  let img := if ramdisk_data.length ≠ 0 then
      img ++ List.replicate (off.ramdisk_offset - img.length) 0 ++ ramdisk_data
    else img
  let img := if second_data.length ≠ 0 then
      img ++ List.replicate (off.second_offset - img.length) 0 ++ second_data
    else img
  let img := if dtb_data.length ≠ 0 then
      img ++ List.replicate (off.dtb_offset - img.length) 0 ++ dtb_data
    else img
  let img := if recovery_data.length ≠ 0 then
      img ++ List.replicate (off.recovery_dtbo_offset - img.length) 0 ++ recovery_data
    else img
  let img := if vendor_data.length ≠ 0 then
      img ++ List.replicate (off.vendor_ramdisk_offset - img.length) 0 ++ vendor_data
    else img
  img

/-- Source `repack_boot_image(header_info, components_dir, output_boot_img)`
(src lines 688-790): read each present component, recompute sizes, plan
offsets, pack the header, then write.  The raised `struct.error` escapes to
the timeout wrapper, which returns the default `None`; `none` here therefore
also means that the output file is never created (the `open` at src line 771
is after the failing pack). -/
def repack_boot_image (h : RepackInput) (c : Components) : Option (List Nat) :=
  let kernel_data := c.kernel.getD []
  let ramdisk_data := c.ramdisk.getD []
  let second_data := c.second.getD []
  let dtb_data := c.dtb.getD []
  let recovery_dtbo_data := c.recovery_dtbo.getD []
  let vendor_ramdisk_data := c.vendor_ramdisk.getD []
  let off := repack_offsets h.page_size kernel_data.length ramdisk_data.length
    second_data.length dtb_data.length recovery_dtbo_data.length
    vendor_ramdisk_data.length
  match repack_pack_header h kernel_data.length ramdisk_data.length
      second_data.length with
  | .error _ => none
  | .ok header =>
    some (write_image header h.page_size off kernel_data ramdisk_data
      second_data dtb_data recovery_dtbo_data vendor_ramdisk_data)

/-- The header pack always raises: 15 format fields versus 17 values. -/
theorem repack_pack_header_arity (h : RepackInput)
    (kernel_size ramdisk_size second_size : Nat) :
    repack_pack_header h kernel_size ramdisk_size second_size =
      .error .structPackArity := by
  unfold repack_pack_header structPack
  simp [repackFormat]

/-- Helper: `repack_boot_image` returns `none` on every input. -/
theorem repack_boot_image_none (h : RepackInput) (c : Components) :
    repack_boot_image h c = none := by
  simp only [repack_boot_image]
  simp only [repack_pack_header_arity]


/-- Unfolding `parseBodyE` past the size check: once the file has at least
160 bytes, the body proceeds to the magic check and the layout phase. -/
theorem parseBodyE_of_ge (fuel : Nat) (file : List Nat)
    (sr sd sa force : Bool) (h : ¬ file.length < 160) :
    parseBodyE fuel file sr sd sa force =
      (if file.take 8 ≠ androidMagic ∧ force = false then .ok none
       else
        match parseLayout fuel file sr sd sa (parseHeaderFields (file.take 1664)) with
        | .error e => .error e
        | .ok li =>
          .ok (some (assembleResult (parseHeaderFields (file.take 1664)) li
            (parseExtract file sr sd sa (parseHeaderFields (file.take 1664)) li)))) := by
  simp only [parseBodyE]
  rw [if_neg h]

theorem option_eq_getD {A : Type} (o : Option A) (d : A)
    (h : o.isSome = true) : o = some (o.getD d) := by
  cases o with
  | none => exact absurd h (by simp)
  | some v => rfl

theorem align_size_zero (ps : Nat) : align_size 0 ps = 0 := by
  unfold align_size
  rcases Nat.eq_zero_or_pos ps with h | h
  · subst h; decide
  · rw [Nat.zero_add, Nat.div_eq_of_lt (by omega)]
    exact Nat.zero_mul ps

/-- C3 counterexample.  For sizes kernel 16, dtb 100, vendor_ramdisk 50 with
recovery_dtbo absent and page size 2048, the repack planner puts the vendor
ramdisk at offset 0, not at the page-aligned end of the preceding payload
(the dtb ends at 4196, whose aligned end is 6144). -/
theorem c3_counterexample :
    repack_offsets 2048 16 0 0 100 0 50 =
      { kernel_offset := 2048, ramdisk_offset := 4096, second_offset := 4096,
        dtb_offset := 4096, recovery_dtbo_offset := 0,
        vendor_ramdisk_offset := 0 } ∧
    align_size ((repack_offsets 2048 16 0 0 100 0 50).dtb_offset + 100) 2048 = 6144 ∧
    (repack_offsets 2048 16 0 0 100 0 50).vendor_ramdisk_offset ≠ 6144 := by
  refine ⟨by decide, by decide, by decide⟩

/-- C3 (amended).  On repack the planner computes `kernel_offset = page_size`
and chains ramdisk, second and dtb offsets through `align_size`
unconditionally; `recovery_dtbo_offset` is the aligned end of the dtb when
recovery_dtbo is present and 0 otherwise; `vendor_ramdisk_offset` is the
aligned end of `recovery_dtbo_offset + recovery_dtbo_size` when the vendor
ramdisk is present — which collapses to 0, NOT the aligned end of the
preceding payload, whenever recovery_dtbo is absent.  On extract,
`kernel_offset = page_size`, a header-supplied `recovery_dtbo_offset` is used
as-is for a present recovery_dtbo, and a header-supplied v4 `dtb_offset` is
used as-is when `dtb_size_v4` is non-zero. -/
theorem c3_amended (ps ks rs ss ds recs vs : Nat)
    (fuel : Nat) (file : List Nat) (sr sd sa force : Bool) (r : ParseResult)
    (hr : parse_boot_image fuel file sr sd sa force = some r) :
    (repack_offsets ps ks rs ss ds recs vs).kernel_offset = ps ∧
    (repack_offsets ps ks rs ss ds recs vs).ramdisk_offset =
      align_size (ps + ks) ps ∧
    (repack_offsets ps ks rs ss ds recs vs).second_offset =
      align_size ((repack_offsets ps ks rs ss ds recs vs).ramdisk_offset + rs) ps ∧
    (repack_offsets ps ks rs ss ds recs vs).dtb_offset =
      align_size ((repack_offsets ps ks rs ss ds recs vs).second_offset + ss) ps ∧
    (recs ≠ 0 → (repack_offsets ps ks rs ss ds recs vs).recovery_dtbo_offset =
      align_size ((repack_offsets ps ks rs ss ds recs vs).dtb_offset + ds) ps) ∧
    (recs = 0 → (repack_offsets ps ks rs ss ds recs vs).recovery_dtbo_offset = 0) ∧
    (vs ≠ 0 → (repack_offsets ps ks rs ss ds recs vs).vendor_ramdisk_offset =
      align_size
        ((repack_offsets ps ks rs ss ds recs vs).recovery_dtbo_offset + recs) ps) ∧
    (vs ≠ 0 ∧ recs = 0 →
      (repack_offsets ps ks rs ss ds recs vs).vendor_ramdisk_offset = 0) ∧
    r.kernel_offset = r.page_size ∧
    (3 ≤ r.header_version → r.recovery_dtbo_size ≠ 0 →
      r.recovery_dtbo_offset = le64 (file.take 1664) 68) ∧
    (le32 (file.take 1664) 40 = 4 → le32 (file.take 1664) 84 ≠ 0 →
      r.dtb_offset = some (le64 (file.take 1664) 88) ∧ r.dtb_size = some 0) := by
  obtain ⟨hlen, li, hl, hres⟩ := parse_some_elim hr
  obtain ⟨so, vo, hs, hvo, hli⟩ := parseLayout_ok_elim hl
  subst hres
  subst hli
  refine ⟨rfl, rfl, rfl, rfl, ?_, ?_, ?_, ?_, rfl, ?_, ?_⟩
  · intro hrec
    simp only [repack_offsets]
    rw [if_pos hrec]
  · intro hrec0
    simp only [repack_offsets]
    rw [if_neg (fun hh => hh hrec0)]
  · intro hv
    simp only [repack_offsets]
    rw [if_pos hv]
  · rintro ⟨hv, hrec0⟩
    simp only [repack_offsets]
    rw [if_pos hv, if_neg (fun hh => hh hrec0), hrec0]
    exact align_size_zero ps
  · intro h3 hrs
    have h32 : 3 ≤ (parseHeaderFields (file.take 1664)).header_version := h3
    have hrs2 : (parseHeaderFields (file.take 1664)).recovery_dtbo_size ≠ 0 := hrs
    have hlen80 : 80 ≤ (file.take 1664).length := by
      rw [List.length_take]; omega
    have hro : (parseHeaderFields (file.take 1664)).recovery_dtbo_offset0 =
        if 3 ≤ (if 4 < le32 (file.take 1664) 40 then 0 else le32 (file.take 1664) 40) ∧
            80 ≤ (file.take 1664).length
        then le64 (file.take 1664) 68 else 0 := rfl
    have hhv : (parseHeaderFields (file.take 1664)).header_version =
        (if 4 < le32 (file.take 1664) 40 then 0 else le32 (file.take 1664) 40) := rfl
    have h33 : 3 ≤ (if 4 < le32 (file.take 1664) 40 then 0
        else le32 (file.take 1664) 40) := by
      rw [← hhv]; exact h32
    simp only [assembleResult]
    show (if (parseHeaderFields (file.take 1664)).recovery_dtbo_size ≠ 0
        then (parseHeaderFields (file.take 1664)).recovery_dtbo_offset0 else 0) =
      le64 (file.take 1664) 68
    rw [if_pos hrs2, hro, if_pos ⟨h33, hlen80⟩]
  · intro h40 h84
    have hlen96 : 96 ≤ (file.take 1664).length := by
      rw [List.length_take]; omega
    have hcond : 4 ≤ (if 4 < le32 (file.take 1664) 40 then 0
        else le32 (file.take 1664) 40) ∧ 96 ≤ (file.take 1664).length := by
      rw [if_neg (by omega)]
      omega
    have hv4 : (parseHeaderFields (file.take 1664)).dtb_size_v4 =
        le32 (file.take 1664) 84 := by
      have he : (parseHeaderFields (file.take 1664)).dtb_size_v4 =
          if 4 ≤ (if 4 < le32 (file.take 1664) 40 then 0 else le32 (file.take 1664) 40) ∧
              96 ≤ (file.take 1664).length
          then le32 (file.take 1664) 84 else 0 := rfl
      rw [he, if_pos hcond]
    have hoff : (parseHeaderFields (file.take 1664)).dtb_offset_v4 =
        le64 (file.take 1664) 88 := by
      have he : (parseHeaderFields (file.take 1664)).dtb_offset_v4 =
          if 4 ≤ (if 4 < le32 (file.take 1664) 40 then 0 else le32 (file.take 1664) 40) ∧
              96 ≤ (file.take 1664).length
          then le64 (file.take 1664) 88 else 0 := rfl
      rw [he, if_pos hcond]
    have hsz0 : (parseHeaderFields (file.take 1664)).dtb_size0 = 0 := by
      have he : (parseHeaderFields (file.take 1664)).dtb_size0 =
          if 4 < le32 (file.take 1664) 40 then le32 (file.take 1664) 44 else 0 := rfl
      rw [he, if_neg (by omega)]
    have hne : (parseHeaderFields (file.take 1664)).dtb_size_v4 ≠ 0 := by
      rw [hv4]; exact h84
    have hdstep : dtbScanStep fuel file sd (parseHeaderFields (file.take 1664)) =
        (some (parseHeaderFields (file.take 1664)).dtb_offset_v4,
          some (parseHeaderFields (file.take 1664)).dtb_size0) := by
      unfold dtbScanStep
      rw [if_neg (fun hc => hne hc.2.2), if_pos hne]
    simp [assembleResult, hdstep, hoff, hsz0, truthy]

/-- A minimal well-formed v0 boot image: 2048-byte header page declaring
kernel_size 16 and page_size 2048, followed by 16 kernel bytes. -/
def sampleV0File : List Nat :=
  androidMagic ++ [16, 0, 0, 0] ++ List.replicate 24 0 ++ [0, 8, 0, 0] ++
    List.replicate 2008 0 ++ List.replicate 16 7

theorem sampleV0_len : sampleV0File.length = 2064 := by
  simp only [sampleV0File, androidMagic, List.length_append, List.length_replicate,
    List.length_cons, List.length_nil]

set_option maxRecDepth 100000 in
theorem sampleV0_isSome :
    (parse_boot_image 4 sampleV0File true true true false).isSome = true := by
  have h : ¬ sampleV0File.length < 160 := by rw [sampleV0_len]; omega
  simp only [parse_boot_image]
  rw [parseBodyE_of_ge 4 sampleV0File true true true false h]
  rfl

set_option maxRecDepth 1000000 in
/-- C3 witness: the amended theorem at the counterexample sizes and a
concrete successful extraction. -/
theorem c3_witness :
    (repack_offsets 2048 16 0 0 100 0 50).kernel_offset = 2048 ∧
    (repack_offsets 2048 16 0 0 100 0 50).ramdisk_offset =
      align_size (2048 + 16) 2048 ∧
    (repack_offsets 2048 16 0 0 100 0 50).second_offset =
      align_size ((repack_offsets 2048 16 0 0 100 0 50).ramdisk_offset + 0) 2048 ∧
    (repack_offsets 2048 16 0 0 100 0 50).dtb_offset =
      align_size ((repack_offsets 2048 16 0 0 100 0 50).second_offset + 0) 2048 ∧
    ((0 : Nat) ≠ 0 → (repack_offsets 2048 16 0 0 100 0 50).recovery_dtbo_offset =
      align_size ((repack_offsets 2048 16 0 0 100 0 50).dtb_offset + 100) 2048) ∧
    ((0 : Nat) = 0 → (repack_offsets 2048 16 0 0 100 0 50).recovery_dtbo_offset = 0) ∧
    ((50 : Nat) ≠ 0 → (repack_offsets 2048 16 0 0 100 0 50).vendor_ramdisk_offset =
      align_size
        ((repack_offsets 2048 16 0 0 100 0 50).recovery_dtbo_offset + 0) 2048) ∧
    ((50 : Nat) ≠ 0 ∧ (0 : Nat) = 0 →
      (repack_offsets 2048 16 0 0 100 0 50).vendor_ramdisk_offset = 0) ∧
    ((parse_boot_image 4 sampleV0File true true true false).getD
      emptyParseResult).kernel_offset =
      ((parse_boot_image 4 sampleV0File true true true false).getD
        emptyParseResult).page_size ∧
    (3 ≤ ((parse_boot_image 4 sampleV0File true true true false).getD
        emptyParseResult).header_version →
      ((parse_boot_image 4 sampleV0File true true true false).getD
        emptyParseResult).recovery_dtbo_size ≠ 0 →
      ((parse_boot_image 4 sampleV0File true true true false).getD
        emptyParseResult).recovery_dtbo_offset =
        le64 (sampleV0File.take 1664) 68) ∧
    (le32 (sampleV0File.take 1664) 40 = 4 → le32 (sampleV0File.take 1664) 84 ≠ 0 →
      ((parse_boot_image 4 sampleV0File true true true false).getD
          emptyParseResult).dtb_offset = some (le64 (sampleV0File.take 1664) 88) ∧
      ((parse_boot_image 4 sampleV0File true true true false).getD
        emptyParseResult).dtb_size = some 0) :=
  c3_amended 2048 16 0 0 100 0 50 4 sampleV0File true true true false
    ((parse_boot_image 4 sampleV0File true true true false).getD emptyParseResult)
    (option_eq_getD (parse_boot_image 4 sampleV0File true true true false)
      emptyParseResult sampleV0_isSome)

/-- The `header_info` a round trip would hand to the repacker for
`sampleV0File`. -/
def c1Header : RepackInput :=
  { page_size := 2048, kernel_addr := 0, ramdisk_addr := 0, second_addr := 0,
    tags_addr := 0, recovery_dtbo_size := 0, dtb_addr := 0,
    os_version := List.replicate 16 0, name := List.replicate 16 0,
    cmdline := [], id := List.replicate 32 0, extra_cmdline := [],
    board_name := [] }

/-- The components directory a round trip would hand to the repacker:
exactly the kernel extracted from `sampleV0File`. -/
def c1Components : Components :=
  { kernel := some (List.replicate 16 7), ramdisk := none, second := none,
    dtb := none, recovery_dtbo := none, vendor_ramdisk := none }

set_option maxRecDepth 1000000 in
/-- C1 (code_bug evidence).  Extraction of a minimal well-formed v0 image
succeeds and recovers the kernel bytes, but repacking the extracted
components produces NO image at all: the `struct.pack` call of
`repack_boot_image` passes 17 values to a 15-field format and raises
`struct.error` on every input, so no byte-identical round trip exists. -/
theorem c1_roundtrip_broken :
    (parse_boot_image 4 sampleV0File true true true false).isSome = true ∧
    ((parse_boot_image 4 sampleV0File true true true false).getD
      emptyParseResult).kernelData = some (List.replicate 16 7) ∧
    repack_boot_image c1Header c1Components = none := by
  have h : ¬ sampleV0File.length < 160 := by rw [sampleV0_len]; omega
  refine ⟨sampleV0_isSome, ?_, repack_boot_image_none c1Header c1Components⟩
  simp only [parse_boot_image]
  rw [parseBodyE_of_ge 4 sampleV0File true true true false h]
  rfl

/-- C2 (code_bug evidence).  `repack_boot_image` returns `None` without
writing anything for EVERY input, so no repacked image (aligned or otherwise)
is ever produced. -/
theorem c2_repack_never_produces_image (h : RepackInput) (c : Components) :
    repack_boot_image h c = none :=
  repack_boot_image_none h c

/-- C4 (code_bug evidence).  The header serialization of `repack_boot_image`
never emits a header block: `struct.pack` raises `struct.error` (15 format
fields, 17 values) for every model, so no image starting with "ANDROID!" is
ever written. -/
theorem c4_header_pack_always_raises (h : RepackInput)
    (kernel_size ramdisk_size second_size : Nat) :
    repack_pack_header h kernel_size ramdisk_size second_size =
      Except.error PyErr.structPackArity :=
  repack_pack_header_arity h kernel_size ramdisk_size second_size

/-- Repack input with a present vendor ramdisk and no recovery_dtbo
(the repack path never validates `page_size`, so a small page keeps the
demonstration readable). -/
def c5Header : RepackInput :=
  { page_size := 8, kernel_addr := 0, ramdisk_addr := 0, second_addr := 0,
    tags_addr := 0, recovery_dtbo_size := 0, dtb_addr := 0,
    os_version := List.replicate 16 0, name := List.replicate 16 0,
    cmdline := [], id := List.replicate 32 0, extra_cmdline := [],
    board_name := [] }

/-- Components with a 10-byte kernel and a 16-byte vendor ramdisk. -/
def c5Components : Components :=
  { kernel := some (List.replicate 10 1), ramdisk := none, second := none,
    dtb := none, recovery_dtbo := none,
    vendor_ramdisk := some (List.replicate 16 2) }

/-- C5 (code_bug evidence).  There is no `target_offset >= current_position`
check anywhere in the repack writer and no LayoutCollision error: on this
input the planner produces vendor_ramdisk_offset 0 while the file position is
already 18 (one 8-byte header page plus a 10-byte kernel), and the writer as
written absorbs the negative gap silently (in Python a byte string times a
negative count is empty), placing the vendor payload at the unaligned,
colliding offset 18; moreover `repack_boot_image` itself aborts even
earlier, with `struct.error` from the header pack, for every input, so the
fatal-LayoutCollision behaviour the spec requires exists nowhere. -/
theorem c5_writer_silent_absorption :
    repack_boot_image c5Header c5Components = none ∧
    (repack_offsets 8 10 0 0 0 0 16).vendor_ramdisk_offset = 0 ∧
    write_image (List.replicate 5 0) 8 (repack_offsets 8 10 0 0 0 0 16)
      (List.replicate 10 1) [] [] [] [] (List.replicate 16 2) =
      List.replicate 8 0 ++ List.replicate 10 1 ++ List.replicate 16 2 ∧
    (List.replicate 8 0 ++ List.replicate 10 1).length = 18 ∧
    18 % 8 ≠ 0 := by
  refine ⟨repack_boot_image_none c5Header c5Components, by decide, by decide,
    by decide, by decide⟩

end BootUnpack
